import Mathlib

/-!
Shallow embedding of `src/backend/app.py` (a Flask application) and of the
parts of the Flask / flask-cors framework behaviour the file relies on.

The Python source is, in full:

  from flask import Flask, jsonify
  from flask_cors import CORS

  app = Flask(__name__)
  CORS(app)

  @app.route('/status')
  def status():
      return jsonify(dict with key message mapped to the success string)

  if __name__ == '__main__':
      app.run(host='0.0.0.0', port=10000)

Framework facts embedded here, all documented Flask / Werkzeug / flask-cors
defaults:
  * `Flask(__name__)` itself registers the default static route
    `/static/<path:filename>` (endpoint `static`) in `app.url_map`, because
    `static_folder` defaults to `static` whether or not that directory
    exists. The repository has no `backend/static` directory, so every file
    lookup by the static view raises NotFound, which Flask turns into the
    404 response. The `path` converter matches any non-empty remainder that
    does not start with a slash.
  * `@app.route('/status')` with no `methods` argument registers the view for
    GET; Werkzeug automatically also accepts HEAD for a GET rule, and Flask,
    because OPTIONS was not listed, provides an automatic OPTIONS response
    (status 200 with an Allow header). The same defaults apply to the static
    rule, which is registered without a `methods` argument as well.
  * The rule `/status` has no trailing slash, so the URL map matches the path
    `/status` exactly; `/status/` does not match and yields 404.
  * A request whose path matches the rule but whose method is not accepted
    yields 405; a request whose path matches no rule yields 404.
  * `CORS(app)` with default options (origins wildcard, send_wildcard False,
    always_send True, resources matching every path) installs an
    after-request hook that runs on every response, including 404 and 405
    responses: it adds an Access-Control-Allow-Origin header whose value is
    the request's Origin header when one is present (every origin matches the
    wildcard) and the wildcard "*" otherwise.
-/

namespace ZapModa

/-- JSON values, restricted to the shapes this application produces. -/
inductive Json where
  | str : String → Json
  | obj : List (String × Json) → Json

/-- An inbound HTTP request as the WSGI layer hands it to Flask. -/
structure Request where
  method : String
  path : String
  query : List (String × String)
  headers : List (String × String)
  body : String
deriving DecidableEq, Repr

/-- An HTTP response: status code, headers, mimetype, and an optional JSON
body (`none` for the framework's HTML or empty bodies). -/
structure Response where
  statusCode : Nat
  headers : List (String × String)
  mimetype : String
  body : Option Json

/-- Look up the first header with the given name. -/
def getHeader (hs : List (String × String)) (k : String) : Option String :=
  (hs.find? (fun p => p.1 == k)).map Prod.snd

/-- Flask's `jsonify`: a 200 response with mimetype application/json whose
body is the serialisation of the given JSON value. -/
def jsonify (j : Json) : Response :=
  { statusCode := 200, headers := [], mimetype := "application/json", body := some j }

/-- The constant payload built by the `status` view in `src/backend/app.py`. -/
def statusPayload : Json :=
  Json.obj [("message", Json.str "Backend rodando com sucesso!")]

/-- The `status` view function from `src/backend/app.py`. Its body is a single
`jsonify` call on a constant literal; a Flask view may raise, which we model
with `Except`, and this one never does. -/
def status : Except String Response :=
  Except.ok (jsonify statusPayload)

/-- A rule of the application's URL map. `viewMethods` are the methods named
at registration (Flask defaults to GET); `methods` are the effective methods
after Werkzeug adds HEAD for GET and Flask adds the automatic OPTIONS.
`frameworkDefault` marks the rule Flask adds itself at construction, as
opposed to a rule registered by the application code; `matchesPath` is the
rule's Werkzeug path pattern. -/
structure Rule where
  rulePath : String
  frameworkDefault : Bool
  viewMethods : List String
  methods : List String
  provideAutomaticOptions : Bool
  matchesPath : String → Bool
  view : Request → Except String Response

/-- Werkzeug's 404 response for a path matching no rule, also produced by
Flask for a NotFound raised inside a view. -/
def notFoundResponse : Response :=
  { statusCode := 404, headers := [], mimetype := "text/html", body := none }

/-- Werkzeug's 405 response for a matched path with an unaccepted method. -/
def methodNotAllowedResponse : Response :=
  { statusCode := 405, headers := [("Allow", "GET, HEAD, OPTIONS")]
    mimetype := "text/html", body := none }

/-- Flask's 500 response when a view raises an unhandled exception. -/
def internalErrorResponse : Response :=
  { statusCode := 500, headers := [], mimetype := "text/html", body := none }

/-- Flask's automatic OPTIONS response: 200 with an Allow header. -/
def defaultOptionsResponse : Response :=
  { statusCode := 200, headers := [("Allow", "GET, HEAD, OPTIONS")]
    mimetype := "text/html", body := none }

/-- The filename captured by the static rule `/static/<path:filename>` for a
given request path, when the rule matches: the `path` converter takes any
non-empty remainder after `/static/` that does not begin with a slash. -/
def staticFilename? (path : String) : Option String :=
  match path.data with
  | '/' :: 's' :: 't' :: 'a' :: 't' :: 'i' :: 'c' :: '/' :: rest =>
    match rest with
    | [] => none
    | c :: _ => if c = '/' then none else some (String.mk rest)
  | _ => none

/-- Whether the static rule matches a request path. -/
def isStaticFilePath (path : String) : Bool :=
  (staticFilename? path).isSome

/-- The default static rule that `Flask(__name__)` registers in the URL map
at construction. The repository contains no `backend/static` directory, so
the static view's file lookup raises NotFound for every filename, which
Flask renders as the 404 response. -/
def staticRule : Rule :=
  { rulePath := "/static/<path:filename>"
    frameworkDefault := true
    viewMethods := ["GET"]
    methods := ["GET", "HEAD", "OPTIONS"]
    provideAutomaticOptions := true
    matchesPath := isStaticFilePath
    view := fun _ => Except.ok notFoundResponse }

/-- The rule registered by `@app.route('/status')`. -/
def statusRule : Rule :=
  { rulePath := "/status"
    frameworkDefault := false
    viewMethods := ["GET"]
    methods := ["GET", "HEAD", "OPTIONS"]
    provideAutomaticOptions := true
    matchesPath := fun p => p == "/status"
    view := fun _ => status }

/-- The application's URL map: the framework's static rule, added at
construction, and then the rule registered by the application code. -/
def urlMap : List Rule := [staticRule, statusRule]

/-- URL matching: the first rule of the map whose pattern matches the path.
The static rule matches `/static/` followed by a filename; the rule
`/status` has no converters and no trailing slash, so it matches exactly
its own path. The two patterns are disjoint. -/
def matchRule (path : String) : Option Rule :=
  urlMap.find? (fun r => r.matchesPath path)

/-- Flask request dispatch, before after-request extensions run: match the
path against the URL map, check the method, run the automatic OPTIONS
response or the view (HEAD is served by the GET view with the body
dropped), and turn an exception into a 500 response. -/
def dispatchCore (req : Request) : Response :=
  match matchRule req.path with
  | none => notFoundResponse
  | some r =>
    if r.methods.contains req.method then
      if req.method == "OPTIONS" && r.provideAutomaticOptions then
        defaultOptionsResponse
      else
        match r.view req with
        | Except.ok resp =>
          if req.method == "HEAD" then { resp with body := none } else resp
        | Except.error _ => internalErrorResponse
    else
      methodNotAllowedResponse

/-- The cross-origin header name set by flask-cors. -/
def aclOriginHeader : String := "Access-Control-Allow-Origin"

/-- The value flask-cors puts in the allow-origin header under its default
options (origins wildcard, send_wildcard False, always_send True): echo the
request's Origin header when present, send the wildcard otherwise. -/
def corsAllowOrigin (requestOrigin : Option String) : String :=
  match requestOrigin with
  | some o => o
  | none => "*"

/-- The after-request hook installed by `CORS(app)`: every path matches the
default resources, so unless the response already carries the header, the
allow-origin header is appended to every response. -/
def corsAfterRequest (req : Request) (resp : Response) : Response :=
  if (getHeader resp.headers aclOriginHeader).isSome then resp
  else
    { resp with
      headers := resp.headers ++
        [(aclOriginHeader, corsAllowOrigin (getHeader req.headers "Origin"))] }

/-- The full response of the application to a request: dispatch, then the
flask-cors after-request hook. -/
def appRespond (req : Request) : Response :=
  corsAfterRequest req (dispatchCore req)

/-- Module-level side effects of importing or running `backend/app.py`,
as a function of the Python `__name__` binding, the process environment and
the command line. The script reads neither the environment nor the command
line; `app.run(host='0.0.0.0', port=10000)` executes only under the
`__name__ == '__main__'` guard. -/
inductive Effect where
  | createApp
  | initCORS
  | registerRoute (path : String) (methods : List String)
  | runServer (host : String) (port : Nat)
deriving DecidableEq, Repr

/-- The effects of executing the module body of `src/backend/app.py`. -/
def moduleEffects (name : String) (_env : List (String × String))
    (_argv : List String) : List Effect :=
  [Effect.createApp, Effect.initCORS, Effect.registerRoute "/status" ["GET"]] ++
  (if name == "__main__" then [Effect.runServer "0.0.0.0" 10000] else [])

/-! Helper lemmas about the embedding. -/

/-- URL matching resolved over the two rules of the map: the static rule
matches the static file paths, the status rule matches exactly `/status`,
and every other path matches nothing. -/
lemma matchRule_eq (path : String) :
    matchRule path =
      if isStaticFilePath path then some staticRule
      else if "/status" = path then some statusRule else none := by
  by_cases hs : isStaticFilePath path = true
  · simp [matchRule, urlMap, List.find?, staticRule, hs]
  · have hs' : isStaticFilePath path = false := eq_false_of_ne_true hs
    by_cases h : "/status" = path
    · simp [matchRule, urlMap, List.find?, staticRule, statusRule, hs', h]
    · have hb : (path == "/status") = false :=
        beq_eq_false_iff_ne.mpr (fun hx => h hx.symm)
      simp [matchRule, urlMap, List.find?, staticRule, statusRule, hs', hb, h]

/-- The after-request hook never changes the status code. -/
lemma corsAfterRequest_statusCode (req : Request) (resp : Response) :
    (corsAfterRequest req resp).statusCode = resp.statusCode := by
  unfold corsAfterRequest; split <;> rfl

/-- The after-request hook never changes the body. -/
lemma corsAfterRequest_body (req : Request) (resp : Response) :
    (corsAfterRequest req resp).body = resp.body := by
  unfold corsAfterRequest; split <;> rfl

/-- The after-request hook never changes the mimetype. -/
lemma corsAfterRequest_mimetype (req : Request) (resp : Response) :
    (corsAfterRequest req resp).mimetype = resp.mimetype := by
  unfold corsAfterRequest; split <;> rfl

/-- Appending a header makes it visible when it was absent before. -/
lemma getHeader_append_of_none (hs : List (String × String)) (k v : String)
    (h : getHeader hs k = none) : getHeader (hs ++ [(k, v)]) k = some v := by
  unfold getHeader at *
  rw [List.find?_append]
  have hfind : List.find? (fun p => p.1 == k) hs = none := by
    rcases hx : List.find? (fun p => p.1 == k) hs with _ | w
    · exact hx
    · rw [hx] at h; simp at h
  rw [hfind]
  simp [List.find?]

/-- Dispatch evaluated on a GET request to /status. -/
lemma dispatchCore_get_status (q hs : List (String × String)) (b : String) :
    dispatchCore { method := "GET", path := "/status", query := q,
                   headers := hs, body := b } = jsonify statusPayload := rfl

/-- Dispatch produces one of exactly five responses: 404, 405, the automatic
OPTIONS answer, the status payload, or the status payload with the body
dropped (HEAD). In particular the 500 branch is unreachable. -/
lemma dispatchCore_cases (req : Request) :
    dispatchCore req = notFoundResponse ∨
    dispatchCore req = methodNotAllowedResponse ∨
    dispatchCore req = defaultOptionsResponse ∨
    dispatchCore req = jsonify statusPayload ∨
    dispatchCore req = { jsonify statusPayload with body := none } := by
  unfold dispatchCore
  rw [matchRule_eq]
  by_cases hst : isStaticFilePath req.path = true
  · rw [if_pos hst]
    dsimp only [staticRule]
    split
    · split
      · right; right; left; rfl
      · split
        · left; rfl
        · left; rfl
    · right; left; rfl
  · rw [if_neg hst]
    by_cases hp : "/status" = req.path
    · rw [if_pos hp]
      dsimp only [statusRule, status]
      split
      · split
        · right; right; left; rfl
        · split
          · right; right; right; right; rfl
          · right; right; right; left; rfl
      · right; left; rfl
    · rw [if_neg hp]
      left; rfl

/-- No response produced by dispatch carries the allow-origin header itself. -/
lemma dispatchCore_no_acl (req : Request) :
    getHeader (dispatchCore req).headers aclOriginHeader = none := by
  rcases dispatchCore_cases req with h | h | h | h | h <;> rw [h] <;> rfl

/-- Dispatch on a GET request to /status whose fields are given explicitly. -/
lemma appRespond_get_status (q hs : List (String × String)) (b : String) :
    (appRespond { method := "GET", path := "/status", query := q,
                  headers := hs, body := b }).statusCode = 200 ∧
    (appRespond { method := "GET", path := "/status", query := q,
                  headers := hs, body := b }).body = some statusPayload ∧
    (appRespond { method := "GET", path := "/status", query := q,
                  headers := hs, body := b }).mimetype = "application/json" := by
  refine ⟨?_, ?_, ?_⟩
  · rw [appRespond, corsAfterRequest_statusCode, dispatchCore_get_status]; rfl
  · rw [appRespond, corsAfterRequest_body, dispatchCore_get_status]; rfl
  · rw [appRespond, corsAfterRequest_mimetype, dispatchCore_get_status]; rfl

/-! Claim theorems. -/

/-- C1: every GET request to /status is answered with HTTP status 200, a
JSON body equal to the object mapping "message" to
"Backend rodando com sucesso!", and the JSON mimetype. -/
theorem getStatus_ok (req : Request)
    (hm : req.method = "GET") (hp : req.path = "/status") :
    (appRespond req).statusCode = 200 ∧
    (appRespond req).body =
      some (Json.obj [("message", Json.str "Backend rodando com sucesso!")]) ∧
    (appRespond req).mimetype = "application/json" := by
  obtain ⟨m, p, q, hs, b⟩ := req
  dsimp only at hm hp
  subst hm; subst hp
  exact appRespond_get_status q hs b

/-- Witness for C1 at a concrete request. -/
theorem getStatus_ok_witness :
    (appRespond { method := "GET", path := "/status", query := [],
                  headers := [], body := "" }).statusCode = 200 ∧
    (appRespond { method := "GET", path := "/status", query := [],
                  headers := [], body := "" }).body =
      some (Json.obj [("message", Json.str "Backend rodando com sucesso!")]) ∧
    (appRespond { method := "GET", path := "/status", query := [],
                  headers := [], body := "" }).mimetype = "application/json" :=
  getStatus_ok { method := "GET", path := "/status", query := [],
                 headers := [], body := "" } rfl rfl

/-- C2: the status handler reads nothing from the request: any two GET
requests to /status, with arbitrary and possibly different query strings,
headers and bodies, produce identical handler responses (the view itself is
a constant function of the request). -/
theorem status_request_independent (r1 r2 : Request)
    (h1m : r1.method = "GET") (h1p : r1.path = "/status")
    (h2m : r2.method = "GET") (h2p : r2.path = "/status") :
    dispatchCore r1 = dispatchCore r2 ∧ statusRule.view r1 = statusRule.view r2 := by
  obtain ⟨m1, p1, q1, s1, b1⟩ := r1
  obtain ⟨m2, p2, q2, s2, b2⟩ := r2
  dsimp only at h1m h1p h2m h2p
  subst h1m; subst h1p; subst h2m; subst h2p
  exact ⟨rfl, rfl⟩

/-- Witness for C2 at two concrete requests that differ in query, headers
and body. -/
theorem status_request_independent_witness :
    dispatchCore { method := "GET", path := "/status", query := [("a", "1")],
                   headers := [("X-Test", "t")], body := "payload" } =
      dispatchCore { method := "GET", path := "/status", query := [],
                     headers := [], body := "" } ∧
    statusRule.view { method := "GET", path := "/status", query := [("a", "1")],
                      headers := [("X-Test", "t")], body := "payload" } =
      statusRule.view { method := "GET", path := "/status", query := [],
                        headers := [], body := "" } :=
  status_request_independent
    { method := "GET", path := "/status", query := [("a", "1")],
      headers := [("X-Test", "t")], body := "payload" }
    { method := "GET", path := "/status", query := [], headers := [], body := "" }
    rfl rfl rfl rfl

/-- C3: every response of the application, whatever the path and method
(404 responses included), carries the Access-Control-Allow-Origin header,
and its value permits the requesting origin: it is the request's own Origin
when one was sent, and the wildcard otherwise. -/
theorem cors_header_on_every_response (req : Request) :
    ∃ v, getHeader (appRespond req).headers aclOriginHeader = some v ∧
      ((getHeader req.headers "Origin" = none ∧ v = "*") ∨
        getHeader req.headers "Origin" = some v) := by
  refine ⟨corsAllowOrigin (getHeader req.headers "Origin"), ?_, ?_⟩
  · have hnone := dispatchCore_no_acl req
    unfold appRespond corsAfterRequest
    rw [hnone]
    exact getHeader_append_of_none _ _ _ hnone
  · rcases ho : getHeader req.headers "Origin" with _ | o
    · exact Or.inl ⟨rfl, rfl⟩
    · exact Or.inr rfl

/-- The concrete OPTIONS request used to refute C4. -/
def optionsStatusRequest : Request :=
  { method := "OPTIONS", path := "/status", query := [], headers := [], body := "" }

/-- C4 counterexample: OPTIONS is a method other than GET, yet the response
to OPTIONS /status has status 200, because Flask provides an automatic
OPTIONS answer for the route. -/
theorem options_status_answers_200 :
    optionsStatusRequest.method ≠ "GET" ∧
    optionsStatusRequest.path = "/status" ∧
    (appRespond optionsStatusRequest).statusCode = 200 :=
  ⟨by decide, rfl, rfl⟩

/-- C4 amended: for every request to /status whose method is none of GET,
HEAD and OPTIONS (e.g. POST, DELETE), the response status is 405, hence
not 200. -/
theorem non_handled_method_gets_405 (req : Request) (hp : req.path = "/status")
    (hm : req.method ∉ (["GET", "HEAD", "OPTIONS"] : List String)) :
    (appRespond req).statusCode = 405 ∧ (appRespond req).statusCode ≠ 200 := by
  have hc : statusRule.methods.contains req.method = false := by
    have : ¬ List.elem req.method ["GET", "HEAD", "OPTIONS"] = true := by
      intro hx; exact hm (List.elem_iff.mp hx)
    simpa [statusRule, List.contains] using eq_false_of_ne_true this
  have hd : dispatchCore req = methodNotAllowedResponse := by
    unfold dispatchCore
    rw [matchRule_eq, hp]
    rw [if_neg (by decide), if_pos rfl]
    dsimp only
    rw [hc]
    rfl
  rw [appRespond, corsAfterRequest_statusCode, hd]
  exact ⟨rfl, by decide⟩

/-- Witness for the amended C4 at a concrete POST request. -/
theorem non_handled_method_gets_405_witness :
    (appRespond { method := "POST", path := "/status", query := [],
                  headers := [], body := "" }).statusCode = 405 ∧
    (appRespond { method := "POST", path := "/status", query := [],
                  headers := [], body := "" }).statusCode ≠ 200 :=
  non_handled_method_gets_405
    { method := "POST", path := "/status", query := [], headers := [], body := "" }
    rfl (by decide)

/-- C5: a request to any path for which no route is defined — neither the
status rule nor the framework's own static rule matches it — is answered
with status 404, whatever the method. -/
theorem undefined_path_gets_404 (req : Request) (hp : req.path ≠ "/status")
    (hs : isStaticFilePath req.path = false) :
    (appRespond req).statusCode = 404 := by
  have hd : dispatchCore req = notFoundResponse := by
    unfold dispatchCore
    rw [matchRule_eq, if_neg (by simp [hs]), if_neg (fun hx => hp hx.symm)]
  rw [appRespond, corsAfterRequest_statusCode, hd]
  rfl

/-- Witness for C5 at a concrete request to the root path, which neither
rule matches. -/
theorem undefined_path_gets_404_witness :
    (appRespond { method := "GET", path := "/", query := [],
                  headers := [], body := "" }).statusCode = 404 :=
  undefined_path_gets_404
    { method := "GET", path := "/", query := [], headers := [], body := "" }
    (by decide) (by decide)

/-- C6 counterexample: the routing table does not hold exactly one rule —
besides the status rule, Flask itself registers the static rule at
construction, so the URL map's length is 2 and not 1. -/
theorem url_map_has_two_rules :
    urlMap.length = 2 ∧ urlMap.length ≠ 1 ∧
    staticRule.rulePath = "/static/<path:filename>" :=
  ⟨rfl, by decide, rfl⟩

/-- C6 amended: the application code registers exactly one route, GET
/status; the framework adds its default static route at construction, so
the routing table holds exactly these two rules, and removing the
framework's own rule leaves exactly the status rule. -/
theorem app_registers_only_get_status :
    urlMap = [staticRule, statusRule] ∧
    urlMap.filter (fun r => !r.frameworkDefault) = [statusRule] ∧
    statusRule.rulePath = "/status" ∧
    statusRule.viewMethods = ["GET"] :=
  ⟨rfl, rfl, rfl, rfl⟩

/-- C7: run as the main program, the module's effects are exactly app
construction, CORS setup, the one route registration, and a server start
bound to host 0.0.0.0 (all interfaces) on the fixed port 10000 — for every
environment and command line, so neither is consulted for the port. -/
theorem main_runs_server_on_10000 (env : List (String × String))
    (argv : List String) :
    moduleEffects "__main__" env argv =
      [Effect.createApp, Effect.initCORS, Effect.registerRoute "/status" ["GET"],
       Effect.runServer "0.0.0.0" 10000] :=
  rfl

/-- C8: the status view cannot fail: on every request it returns the fixed
successful response, and no dispatch outcome of the application is the 500
internal-error response. -/
theorem status_view_cannot_fail (req : Request) :
    statusRule.view req = Except.ok (jsonify statusPayload) ∧
    (dispatchCore req).statusCode ≠ 500 := by
  refine ⟨rfl, ?_⟩
  rcases dispatchCore_cases req with h | h | h | h | h <;> rw [h] <;> decide

/-- C9: with any module name other than the main-program name, executing the
module performs only app construction, CORS setup and route registration —
no server start for any host and port, for every environment and command
line. -/
theorem no_server_start_on_module_import (name : String)
    (env : List (String × String)) (argv : List String)
    (h : name ≠ "__main__") :
    moduleEffects name env argv =
      [Effect.createApp, Effect.initCORS, Effect.registerRoute "/status" ["GET"]] ∧
    ∀ host port, Effect.runServer host port ∉ moduleEffects name env argv := by
  have hb : (name == "__main__") = false := beq_eq_false_iff_ne.mpr h
  constructor
  · simp [moduleEffects, hb]
  · intro host port
    simp [moduleEffects, hb]

/-- Witness for C9 at the dotted module name the file gets when imported. -/
theorem no_server_start_on_module_import_witness :
    moduleEffects "backend.app" [] [] =
      [Effect.createApp, Effect.initCORS, Effect.registerRoute "/status" ["GET"]] ∧
    Effect.runServer "0.0.0.0" 10000 ∉ moduleEffects "backend.app" [] [] :=
  ⟨(no_server_start_on_module_import "backend.app" [] [] (by decide)).1,
   (no_server_start_on_module_import "backend.app" [] [] (by decide)).2
     "0.0.0.0" 10000⟩

/-- The concrete trailing-slash request used for C10. -/
def trailingSlashRequest : Request :=
  { method := "GET", path := "/status/", query := [], headers := [], body := "" }

/-- C10: GET /status/ with a trailing slash does not reach the status view:
the rule is registered without a trailing slash, so the response is the
404 not-found answer with no JSON payload. -/
theorem status_trailing_slash_404 :
    (appRespond trailingSlashRequest).statusCode = 404 ∧
    (appRespond trailingSlashRequest).body = none :=
  ⟨rfl, rfl⟩

end ZapModa
